import Mathlib

/-!
Verification of the ANCA pipeline orchestration against its specification.

The definitions below are a shallow embedding of the orchestration code:

* `src/app/state.py` — the `ArticleState` document state (`Section`, `Blueprint`,
  the `sections_content` accumulator annotated with `operator.add`);
* `src/agents/writer.py` — `writer_node`, one fan-out unit per section;
* `src/agents/assembler.py` — the deterministic part of `assembler_node`
  (sort of `sections_content` by order index and join of the bodies);
* `src/agents/fact_checker.py`, `src/agents/auditor.py`, `src/agents/refiner.py`
  — the review-loop state updates (each returns a partial state update that the
  executor merges into the state; a key absent from the update leaves the field
  unchanged, a key present replaces it);
* `src/run_graph.py` — the routers `should_continue_revising` and
  `should_continue_critique`, the node wrappers that increment the loop
  counters, and the workflow's static edges.

Collaborator calls (LLM invocations) are modelled as `Except String α`
outcomes: `Except.ok` is a successful structured result, `Except.error` is a
raised exception or a result that failed to parse.
-/

/-- Entry of `ArticleState.sections_content` (`src/app/state.py` line 38):
a Python dict `{'order': int, 'content': str}`. -/
structure SectionEntry where
  order : Nat
  content : String
  deriving DecidableEq, Repr

/-- One planned section of the article (`src/app/state.py`, class `Section`). -/
structure Section where
  heading : String
  description : String
  word_count : Nat
  search_queries : List String
  deriving DecidableEq, Repr

/-- The article plan (`src/app/state.py`, class `Blueprint`). -/
structure Blueprint where
  title : String
  audience : String
  sections : List Section
  deriving DecidableEq, Repr

/-- The comparison used by `sorted(state["sections_content"], key=lambda x: x["order"])`
in `assembler_node` (`src/agents/assembler.py` line 52). Python's `sorted` is a
stable sort by this key. -/
def sectionLe (a b : SectionEntry) : Prop :=
  a.order ≤ b.order

/-- Strict version of `sectionLe`, used to phrase uniqueness of the sorted list. -/
def sectionLt (a b : SectionEntry) : Prop :=
  a.order < b.order

instance : DecidableRel sectionLe :=
  fun a b => inferInstanceAs (Decidable (a.order ≤ b.order))

instance : DecidableRel sectionLt :=
  fun a b => inferInstanceAs (Decidable (a.order < b.order))

instance : IsTotal SectionEntry sectionLe :=
  ⟨fun a b => Nat.le_total a.order b.order⟩

instance : IsTrans SectionEntry sectionLe :=
  ⟨fun _ _ _ h₁ h₂ => Nat.le_trans h₁ h₂⟩

instance : IsAntisymm SectionEntry sectionLt :=
  ⟨fun _ _ h₁ h₂ => absurd (Nat.lt_trans h₁ h₂) (Nat.lt_irrefl _)⟩

/-- Step 1 of `assembler_node` (`src/agents/assembler.py` line 52):
`sorted_sections = sorted(state["sections_content"], key=lambda x: x["order"])`.
`List.insertionSort` with a `≤` key comparison is a stable sort, as Python's
`sorted` is. -/
def sorted_sections (sections_content : List SectionEntry) : List SectionEntry :=
  List.insertionSort sectionLe sections_content

/-- Step 2 of `assembler_node` (`src/agents/assembler.py` line 55):
`draft_body = "\n\n".join([s["content"] for s in sorted_sections])`. -/
def draft_body (sections_content : List SectionEntry) : String :=
  String.intercalate "\n\n" ((sorted_sections sections_content).map (fun s => s.content))

/-- The single result entry emitted by one writer unit (`src/agents/writer.py`
lines 85–96): on success the formatted section, on a collaborator error the
explicit error-marker placeholder, both tagged with the unit's own order index. -/
def writer_entry (s : Section) (order : Nat) (outcome : Except String String) : SectionEntry :=
  match outcome with
  | Except.ok content =>
      { order := order, content := "## " ++ s.heading ++ "\n\n" ++ content ++ "\n\n" }
  | Except.error e =>
      { order := order, content := "## " ++ s.heading ++ "\n\n(Error writing this section: " ++ e ++ ")\n\n" }

/-- The partial state update returned by `writer_node` (`src/agents/writer.py`
lines 90 and 96): a singleton list for the `sections_content` accumulator,
whether the unit's collaborator call succeeded or raised. -/
def writer_node (s : Section) (order : Nat) (outcome : Except String String) : List SectionEntry :=
  match outcome with
  | Except.ok content =>
      [{ order := order, content := "## " ++ s.heading ++ "\n\n" ++ content ++ "\n\n" }]
  | Except.error e =>
      [{ order := order, content := "## " ++ s.heading ++ "\n\n(Error writing this section: " ++ e ++ ")\n\n" }]

/-- The combined output of the fan-out phase: every unit runs `writer_node` on
its own section, order index and collaborator outcome, and the emitted partial
updates are collected in completion order. -/
def fan_out_units (units : List (Section × Nat × Except String String)) : List SectionEntry :=
  (units.map (fun u => writer_node u.1 u.2.1 u.2.2)).flatten

/-- The reducer declared on `ArticleState.sections_content`
(`src/app/state.py` line 39): `Annotated[List[dict], operator.add]`, i.e. list
concatenation of the existing value with each incoming partial update. -/
def sections_content_add (acc update : List SectionEntry) : List SectionEntry :=
  acc ++ update

/-- Fan-in merge: the executor folds every unit's partial update into the
state's `sections_content` with the `operator.add` reducer. -/
def fan_in_merge (acc : List SectionEntry) (updates : List (List SectionEntry)) : List SectionEntry :=
  updates.foldl sections_content_add acc

theorem writer_node_eq (s : Section) (order : Nat) (outcome : Except String String) :
    writer_node s order outcome = [writer_entry s order outcome] := by
  cases outcome <;> rfl

theorem fan_out_units_eq (units : List (Section × Nat × Except String String)) :
    fan_out_units units = units.map (fun u => writer_entry u.1 u.2.1 u.2.2) := by
  induction units with
  | nil => rfl
  | cons u rest ih =>
      simp [fan_out_units, writer_node_eq] at ih ⊢
      exact ih

theorem sorted_sections_perm (l : List SectionEntry) : (sorted_sections l).Perm l :=
  List.perm_insertionSort sectionLe l

theorem sorted_sections_sorted (l : List SectionEntry) :
    List.Sorted sectionLe (sorted_sections l) :=
  List.sorted_insertionSort sectionLe l

/-- A list sorted by strict order index has pairwise-distinct order indices. -/
theorem sorted_lt_orders_ne {c : List SectionEntry} (h : List.Sorted sectionLt c) :
    c.Pairwise (fun a b => a.order ≠ b.order) :=
  h.imp (fun hab => Nat.ne_of_lt hab)

/-- Sorting any permutation of a strictly-ordered list recovers that list:
the sorted output is a permutation, is sorted by `≤` on the order index, and
distinctness of the order indices upgrades this to the unique strictly-sorted
arrangement. -/
theorem sorted_sections_of_perm {l c : List SectionEntry}
    (hperm : l.Perm c) (hc : List.Sorted sectionLt c) :
    sorted_sections l = c := by
  have hp : (sorted_sections l).Perm c := (sorted_sections_perm l).trans hperm
  have hne : (sorted_sections l).Pairwise (fun a b => a.order ≠ b.order) :=
    (sorted_lt_orders_ne hc).perm hp.symm (fun h => h.symm)
  have hlt : List.Sorted sectionLt (sorted_sections l) :=
    List.Pairwise.imp₂ (fun _ _ hle hne => Nat.lt_of_le_of_ne hle hne)
      (sorted_sections_sorted l) hne
  exact List.eq_of_perm_of_sorted hp hlt hc

/-- C1: for a blueprint with `N` sections whose results carry pairwise-distinct
order indices 0..N-1 (`c` is the canonical ascending result list), every
completion order `l` (any permutation of `c`) assembles to the same draft body:
exactly `N` section bodies, concatenated in ascending order-index order, never
in arrival order. -/
theorem assembler_orders_by_order_index (l c : List SectionEntry)
    (hperm : l.Perm c) (hc : List.Sorted sectionLt c) :
    sorted_sections l = c ∧
    draft_body l = String.intercalate "\n\n" (c.map (fun s => s.content)) ∧
    (sorted_sections l).length = c.length := by
  have h := sorted_sections_of_perm hperm hc
  refine ⟨h, ?_, by rw [h]⟩
  unfold draft_body
  rw [h]

/-- Witness for C1, the spec's own scenario: sections A, B, C; unit C completes
first, A second, B third; the assembled order is A, B, C. -/
theorem assembler_orders_by_order_index_witness :
    ([⟨2, "C"⟩, ⟨0, "A"⟩, ⟨1, "B"⟩] : List SectionEntry).Perm
        [⟨0, "A"⟩, ⟨1, "B"⟩, ⟨2, "C"⟩] ∧
    sorted_sections [⟨2, "C"⟩, ⟨0, "A"⟩, ⟨1, "B"⟩] = [⟨0, "A"⟩, ⟨1, "B"⟩, ⟨2, "C"⟩] :=
  ⟨by decide, (assembler_orders_by_order_index _ _ (by decide) (by decide)).1⟩

/-- Fields of `ArticleState` read and written by the review loop
(`src/app/state.py` lines 30–36): the article text, the auditor feedback, the
revision counter, and the fact-checker's correction text. -/
structure ReviewState where
  final_article : String
  feedback : Option String
  revision_number : Nat
  fact_errors : Option String
  deriving DecidableEq, Repr

/-- Structured output of the fact-checking collaborator
(`src/agents/fact_checker.py`, class `FactCheckResult`), after the
`field_validator` has normalised `has_errors` to a boolean. -/
structure FactCheckResult where
  has_errors : Bool
  error_details : String
  deriving DecidableEq, Repr

/-- Structured output of the auditing collaborator
(`src/agents/auditor.py`, class `AuditResult`). -/
structure AuditResult where
  pass_audit : Bool
  feedback : String
  deriving DecidableEq, Repr

/-- Python's `str.lower()` as used on `result.error_details.lower()`
(`src/agents/fact_checker.py` line 64); the embedded strings are ASCII, where
`Char.toLower` agrees with Python. -/
def py_lower (s : String) : String :=
  ⟨s.data.map Char.toLower⟩

/-- State update of `fact_checker_node` (`src/agents/fact_checker.py`
lines 58–80). With a parsed result: the error branch is taken only when
`result.has_errors` holds and `result.error_details.lower() != "none"`, setting
`fact_errors` and injecting feedback; otherwise `fact_errors` is cleared and
`feedback` is left untouched. A raised or unparseable collaborator call
(`except` branch, lines 78–80) returns `{"fact_errors": None}`. -/
def fact_checker_node (state : ReviewState) (outcome : Except String FactCheckResult) :
    ReviewState :=
  match outcome with
  | Except.ok result =>
      if result.has_errors = true ∧ py_lower result.error_details ≠ "none" then
        { state with
          fact_errors := some result.error_details,
          feedback := some ("CRITICAL FACTUAL ERRORS FOUND:\n" ++ result.error_details
            ++ "\n\nPlease fix these immediately.") }
      else
        { state with fact_errors := none }
  | Except.error _ => { state with fact_errors := none }

/-- State update of `auditor_node` (`src/agents/auditor.py` lines 50–66).
On a parsed result the feedback is `None` exactly when the audit passed, and
`revision_number` is passed through unchanged. On a raised or unparseable
collaborator call (`except` branch, lines 63–66) the code returns
`{"feedback": "Error during audit. Passing by default.", "revision_number": 0}`. -/
def auditor_node (revision_number : Nat) (outcome : Except String AuditResult) :
    Option String × Nat :=
  match outcome with
  | Except.ok result =>
      (if result.pass_audit then none else some result.feedback, revision_number)
  | Except.error _ =>
      (some "Error during audit. Passing by default.", 0)

/-- State update of `refiner_node` (`src/agents/refiner.py` lines 44–72).
On success it returns `{"final_article": ..., "revision_number": current + 1,
"feedback": None}` — `fact_errors` is not a key of the update, so that field
is left unchanged by the merge. On a raised collaborator call it returns `{}`
(no change). -/
def refiner_node (state : ReviewState) (outcome : Except String String) : ReviewState :=
  match outcome with
  | Except.ok rewritten_article =>
      { state with
        final_article := rewritten_article,
        revision_number := state.revision_number + 1,
        feedback := none }
  | Except.error _ => state

/-- C3 (code bug): the auditor's collaborator-error branch resets the revision
counter. At a state whose `revision_number` is 2, a raised audit call returns a
state update carrying `revision_number = 0`, strictly below the previous value —
the counter is reset mid-run, while the success branch of the very same node
passes the counter through unchanged. -/
theorem auditor_error_resets_revision_counter :
    (auditor_node 2 (Except.error "collaborator unavailable")).2 = 0 ∧
    (auditor_node 2 (Except.error "collaborator unavailable")).2 < 2 ∧
    (auditor_node 2 (Except.ok ⟨false, "tighten the intro"⟩)).2 = 2 :=
  ⟨rfl, by decide, rfl⟩

/-- C4 counterexample: a successful refine application does not clear the
fact-correction field. At a state with outstanding `fact_errors`, the refiner's
update increments the counter and clears `feedback`, but `fact_errors` is still
present afterwards. -/
theorem refiner_keeps_fact_errors :
    (refiner_node ⟨"draft", some "fix the tone", 0, some "wrong release date"⟩
        (Except.ok "revised draft")).fact_errors ≠ none :=
  by decide

/-- C4 (amended): after every successful refine application the update
increments the revision counter by exactly 1, replaces the article text and
clears `feedback`; the fact-correction field `fact_errors` is left unchanged,
not cleared. -/
theorem refiner_increments_and_clears_feedback (state : ReviewState) (rewritten : String) :
    (refiner_node state (Except.ok rewritten)).revision_number = state.revision_number + 1 ∧
    (refiner_node state (Except.ok rewritten)).feedback = none ∧
    (refiner_node state (Except.ok rewritten)).fact_errors = state.fact_errors ∧
    (refiner_node state (Except.ok rewritten)).final_article = rewritten :=
  ⟨rfl, rfl, rfl, rfl⟩

/-- C6 (code bug): a malformed FactVerifier result is pass-open — the
fact-checker's error branch reports `fact_errors = None` — but a malformed
QualityAuditor result is not: the auditor's error branch fills the feedback
field with the non-empty message "Error during audit. Passing by default.",
which a presence-based quality-gate router reads as actionable feedback. -/
theorem malformed_auditor_output_reports_feedback :
    (fact_checker_node ⟨"article", none, 1, none⟩ (Except.error "parse failure")).fact_errors
        = none ∧
    (auditor_node 1 (Except.error "parse failure")).1
        = some "Error during audit. Passing by default." ∧
    (auditor_node 1 (Except.error "parse failure")).1 ≠ none :=
  ⟨rfl, rfl, by decide⟩

/-- C10: a fact-check result with `has_errors = True` whose `error_details`
lowercases to "none" takes the no-errors branch: `fact_errors` comes back
`None`, no feedback is injected, and the update is identical to the one for
`has_errors = False` with the same details. -/
theorem fact_checker_none_details_is_pass (state : ReviewState) (details : String)
    (h : py_lower details = "none") :
    fact_checker_node state (Except.ok ⟨true, details⟩) = { state with fact_errors := none } ∧
    fact_checker_node state (Except.ok ⟨true, details⟩)
        = fact_checker_node state (Except.ok ⟨false, details⟩) ∧
    (fact_checker_node state (Except.ok ⟨true, details⟩)).feedback = state.feedback := by
  refine ⟨?_, ?_, ?_⟩ <;> simp [fact_checker_node, h]

/-- Witness for C10 at the concrete details string "None" (the exact sentinel
the fact-checker prompt asks for). -/
theorem fact_checker_none_details_is_pass_witness :
    py_lower "None" = "none" ∧
    fact_checker_node ⟨"article", none, 0, some "stale"⟩ (Except.ok ⟨true, "None"⟩)
        = { final_article := "article", feedback := none, revision_number := 0,
            fact_errors := none } :=
  ⟨by decide, (fact_checker_none_details_is_pass ⟨"article", none, 0, some "stale"⟩ "None"
    (by decide)).1⟩

/-- C7 counterexample: the fan-in accumulation is not idempotent. Running the
merge a second time over the same one-element result set duplicates the entry
instead of yielding an identical list. -/
theorem fan_in_merge_not_idempotent :
    fan_in_merge (fan_in_merge [] [[⟨0, "A"⟩]]) [[⟨0, "A"⟩]]
      ≠ fan_in_merge ([] : List SectionEntry) [[⟨0, "A"⟩]] := by
  decide

/-- C7 (amended): the accumulation rule on `sections_content` is list
concatenation in arrival order (`operator.add`), not an insert-or-replace keyed
by order index: merging a result set into an accumulator appends all results,
and running the fan-in merge a second time over the same completed result set
appends a duplicate copy of every result rather than yielding an identical
list. -/
theorem fan_in_merge_is_append (acc : List SectionEntry)
    (updates : List (List SectionEntry)) :
    fan_in_merge acc updates = acc ++ updates.flatten ∧
    fan_in_merge (fan_in_merge [] updates) updates = updates.flatten ++ updates.flatten := by
  have key : ∀ (us : List (List SectionEntry)) (a : List SectionEntry),
      fan_in_merge a us = a ++ us.flatten := by
    intro us
    induction us with
    | nil => intro a; simp [fan_in_merge]
    | cons u rest ih =>
        intro a
        simp only [fan_in_merge, List.foldl_cons, List.flatten_cons] at ih ⊢
        rw [ih (sections_content_add a u)]
        simp [sections_content_add, List.append_assoc]
  exact ⟨key updates acc, by rw [key, key]; simp⟩

/-- C5: a failed fan-out unit is isolated. If unit `k` of `N` units fails with
collaborator error `e`, the fan-out still emits exactly `N` results; the failed
unit's result sits at position `k` with its own order index and the explicit
error-marker placeholder text; and every unit's result is a function of that
unit's own section, order index and outcome alone, so the other units are
unaffected. -/
theorem writer_failure_is_isolated (units : List (Section × Nat × Except String String))
    (k : Nat) (s : Section) (order : Nat) (e : String)
    (hk : units[k]? = some (s, order, Except.error e)) :
    (fan_out_units units).length = units.length ∧
    (fan_out_units units)[k]? = some
      { order := order,
        content := "## " ++ s.heading ++ "\n\n(Error writing this section: " ++ e ++ ")\n\n" } ∧
    (∀ j : Nat, (fan_out_units units)[j]?
      = (units[j]?).map (fun u : Section × Nat × Except String String =>
          writer_entry u.1 u.2.1 u.2.2)) ∧
    (sorted_sections (fan_out_units units)).length = units.length := by
  have hmap := fan_out_units_eq units
  refine ⟨by rw [hmap]; exact List.length_map _ _, ?_, ?_, ?_⟩
  · rw [hmap, List.getElem?_map, hk]
    rfl
  · intro j
    rw [hmap, List.getElem?_map]
  · have hperm := sorted_sections_perm (fan_out_units units)
    rw [hperm.length_eq, hmap, List.length_map]

/-- Witness for C5, the spec's own scenario: five fan-out units, the third one
raises, and the fan-out still emits five results with the failed slot holding
the error-marker placeholder at its own order index. -/
theorem writer_failure_is_isolated_witness :
    ([(⟨"H0", "", 100, []⟩, 0, Except.ok "b0"),
      (⟨"H1", "", 100, []⟩, 1, Except.ok "b1"),
      (⟨"H2", "", 100, []⟩, 2, Except.error "CollaboratorUnavailable"),
      (⟨"H3", "", 100, []⟩, 3, Except.ok "b3"),
      (⟨"H4", "", 100, []⟩, 4, Except.ok "b4")]
        : List (Section × Nat × Except String String))[2]?
      = some (⟨"H2", "", 100, []⟩, 2, Except.error "CollaboratorUnavailable") ∧
    (fan_out_units
      [(⟨"H0", "", 100, []⟩, 0, Except.ok "b0"),
       (⟨"H1", "", 100, []⟩, 1, Except.ok "b1"),
       (⟨"H2", "", 100, []⟩, 2, Except.error "CollaboratorUnavailable"),
       (⟨"H3", "", 100, []⟩, 3, Except.ok "b3"),
       (⟨"H4", "", 100, []⟩, 4, Except.ok "b4")]).length = 5 :=
  ⟨rfl,
   (writer_failure_is_isolated _ 2 ⟨"H2", "", 100, []⟩ 2 "CollaboratorUnavailable" rfl).1⟩

/-- Routing target of `should_continue_revising` (`src/run_graph.py`
lines 320–355): the string "auditor" continues the loop, the string "end" maps
to the terminal transition. -/
inductive ReviseRoute where
  | auditor
  | stop
  deriving DecidableEq, Repr

/-- Routing target of `should_continue_critique` (`src/run_graph.py`
lines 281–318). -/
inductive CritiqueRoute where
  | auditor
  | generator
  deriving DecidableEq, Repr

/-- The revision cap hard-coded as `max_revisions = 3` in
`should_continue_revising` (`src/run_graph.py` line 329). -/
def max_revisions : Nat := 3

/-- The critique cap hard-coded as `max_critiques = 3` in
`should_continue_critique` (`src/run_graph.py` line 291). -/
def max_critiques : Nat := 3

/-- The `recursion_limit` passed to `app.invoke` (`src/run_graph.py` line 550):
the executor's global step budget. -/
def recursion_limit : Nat := 300

/-- Router after the reviser (`src/run_graph.py` lines 320–355). The code first
returns "end" when `revision_count >= max_revisions`; otherwise it scans the
messages (most recent first) for a quality score `s/10` and returns "end" on the
first score found with `s >= 9` — scores below 9 keep scanning — finally
returning "auditor". `message_scores` is the list of scores parsed from the
messages in scan order, so the scan returns "end" exactly when some parsed
score is at least 9. -/
def should_continue_revising (revision_count : Nat) (message_scores : List Nat) :
    ReviseRoute :=
  if max_revisions ≤ revision_count then ReviseRoute.stop
  else if message_scores.any (fun s => 9 ≤ s) then ReviseRoute.stop
  else ReviseRoute.auditor

/-- Router after the critique node (`src/run_graph.py` lines 281–318). The code
first returns "auditor" when `critique_count >= max_critiques`; otherwise the
first PASS/FAIL status parsed from the messages decides (PASS → "auditor",
FAIL → "generator"), and if no status parses it falls through to "auditor". -/
def should_continue_critique (critique_count : Nat) (message_statuses : List Bool) :
    CritiqueRoute :=
  if max_critiques ≤ critique_count then CritiqueRoute.auditor
  else
    match message_statuses with
    | [] => CritiqueRoute.auditor
    | status :: _ => if status then CritiqueRoute.auditor else CritiqueRoute.generator

/-- The revision-counter update of `reviser_node_wrapper` (`src/run_graph.py`
line 218): `revision_count = state.get('revision_count', 0) + 1`. -/
def reviser_node_wrapper (revision_count : Nat) : Nat :=
  revision_count + 1

/-- The critique-counter update of `critique_node_wrapper` (`src/run_graph.py`
line 260): `critique_count = state.get('critique_count', 0) + 1`. -/
def critique_node_wrapper (critique_count : Nat) : Nat :=
  critique_count + 1

theorem should_continue_revising_auditor_lt {c : Nat} {scores : List Nat}
    (h : should_continue_revising c scores = ReviseRoute.auditor) : c < max_revisions := by
  by_contra hc
  simp [should_continue_revising, Nat.le_of_not_lt hc] at h

theorem should_continue_critique_generator_lt {c : Nat} {statuses : List Bool}
    (h : should_continue_critique c statuses = CritiqueRoute.generator) :
    c < max_critiques := by
  by_contra hc
  simp [should_continue_critique, Nat.le_of_not_lt hc] at h

/-- The revision phase of the workflow (`src/run_graph.py` lines 384–396):
from the auditor the graph always steps to the reviser
(`workflow.add_edge("auditor", "reviser")`); the reviser increments the
revision counter; then `should_continue_revising` routes either back to the
auditor or to END. `scores i` is the list of quality scores parseable from the
messages when the router runs for the `i`-th time. The result is the final
revision counter paired with the number of node executions (auditor plus
reviser per iteration). -/
def revision_phase (scores : Nat → List Nat) (i revision_count : Nat) : Nat × Nat :=
  match h : should_continue_revising (reviser_node_wrapper revision_count) (scores i) with
  | ReviseRoute.stop => (reviser_node_wrapper revision_count, 2)
  | ReviseRoute.auditor =>
      ((revision_phase scores (i + 1) (reviser_node_wrapper revision_count)).1,
       (revision_phase scores (i + 1) (reviser_node_wrapper revision_count)).2 + 2)
termination_by max_revisions - revision_count
decreasing_by
all_goals
  have hlt := should_continue_revising_auditor_lt h
  simp [reviser_node_wrapper, max_revisions] at hlt ⊢
  omega

/-- The critique phase of the workflow (`src/run_graph.py` lines 370–382):
the critique node increments the critique counter, then
`should_continue_critique` routes either forward to the auditor or back to the
generator, which re-expands the draft and hands back to the critique node.
`statuses i` is the list of PASS/FAIL statuses parseable from the messages when
the router runs for the `i`-th time. The result is the final critique counter
paired with the number of node executions (each iteration is one critique node
plus, on a FAIL, one generator node). -/
def critique_phase (statuses : Nat → List Bool) (i critique_count : Nat) : Nat × Nat :=
  match h : should_continue_critique (critique_node_wrapper critique_count) (statuses i) with
  | CritiqueRoute.auditor => (critique_node_wrapper critique_count, 1)
  | CritiqueRoute.generator =>
      ((critique_phase statuses (i + 1) (critique_node_wrapper critique_count)).1,
       (critique_phase statuses (i + 1) (critique_node_wrapper critique_count)).2 + 2)
termination_by max_critiques - critique_count
decreasing_by
all_goals
  have hlt := should_continue_critique_generator_lt h
  simp [critique_node_wrapper, max_critiques] at hlt ⊢
  omega

theorem revision_phase_stop (scores : Nat → List Nat) (i c : Nat)
    (h : should_continue_revising (reviser_node_wrapper c) (scores i) = ReviseRoute.stop) :
    revision_phase scores i c = (reviser_node_wrapper c, 2) := by
  rw [revision_phase]
  split
  · rfl
  · rename_i h2
    rw [h] at h2
    cases h2

theorem revision_phase_auditor (scores : Nat → List Nat) (i c : Nat)
    (h : should_continue_revising (reviser_node_wrapper c) (scores i) = ReviseRoute.auditor) :
    revision_phase scores i c
      = ((revision_phase scores (i + 1) (reviser_node_wrapper c)).1,
         (revision_phase scores (i + 1) (reviser_node_wrapper c)).2 + 2) := by
  rw [revision_phase]
  split
  · rename_i h2
    rw [h] at h2
    cases h2
  · rfl

/-- The final revision counter of the revision phase never exceeds the larger
of the entry counter plus one and the cap. -/
theorem revision_phase_count_le (scores : Nat → List Nat) (i c : Nat) :
    (revision_phase scores i c).1 ≤ max (c + 1) max_revisions := by
  induction i, c using revision_phase.induct scores with
  | case1 i c h =>
      rw [revision_phase_stop scores i c h]
      exact Nat.le_max_left _ _
  | case2 i c h ih =>
      rw [revision_phase_auditor scores i c h]
      have hlt := should_continue_revising_auditor_lt h
      simp only [reviser_node_wrapper] at hlt ih
      have h1 : max (c + 1 + 1) max_revisions = max_revisions := Nat.max_eq_right (by omega)
      have h2 : max (c + 1) max_revisions = max_revisions := Nat.max_eq_right (by omega)
      rw [h2]
      rw [h1] at ih
      exact ih

/-- The revision phase executes at most `2 * (max_revisions - c) + 2` nodes. -/
theorem revision_phase_steps_le (scores : Nat → List Nat) (i c : Nat) :
    (revision_phase scores i c).2 ≤ 2 * (max_revisions - c) + 2 := by
  induction i, c using revision_phase.induct scores with
  | case1 i c h =>
      rw [revision_phase_stop scores i c h]
      omega
  | case2 i c h ih =>
      rw [revision_phase_auditor scores i c h]
      have hlt := should_continue_revising_auditor_lt h
      simp only [reviser_node_wrapper] at hlt ih ⊢
      simp only [max_revisions] at hlt ih ⊢
      omega

/-- When no parsed quality score ever reaches 9, the revision phase runs the
loop to the cap: the final revision counter is exactly `max_revisions`. -/
theorem revision_phase_count_eq_max (scores : Nat → List Nat) (i c : Nat)
    (hc : c < max_revisions) (hgate : ∀ j s, s ∈ scores j → s < 9) :
    (revision_phase scores i c).1 = max_revisions := by
  induction i, c using revision_phase.induct scores with
  | case1 i c h =>
      rw [revision_phase_stop scores i c h]
      have hany : (scores i).any (fun s => 9 ≤ s) = false := by
        simp only [List.any_eq_false, decide_eq_true_eq]
        intro x hx
        exact Nat.not_le.mpr (hgate i x hx)
      unfold should_continue_revising reviser_node_wrapper at h
      rw [hany] at h
      by_cases h3 : max_revisions ≤ c + 1
      · simp only [reviser_node_wrapper, max_revisions] at h3 hc ⊢
        omega
      · simp [h3] at h
  | case2 i c h ih =>
      rw [revision_phase_auditor scores i c h]
      have hlt := should_continue_revising_auditor_lt h
      simp only [reviser_node_wrapper] at hlt ih
      exact ih (by omega)

theorem critique_phase_auditor_eq (statuses : Nat → List Bool) (i c : Nat)
    (h : should_continue_critique (critique_node_wrapper c) (statuses i)
      = CritiqueRoute.auditor) :
    critique_phase statuses i c = (critique_node_wrapper c, 1) := by
  rw [critique_phase]
  split
  · rfl
  · rename_i h2
    rw [h] at h2
    cases h2

theorem critique_phase_generator_eq (statuses : Nat → List Bool) (i c : Nat)
    (h : should_continue_critique (critique_node_wrapper c) (statuses i)
      = CritiqueRoute.generator) :
    critique_phase statuses i c
      = ((critique_phase statuses (i + 1) (critique_node_wrapper c)).1,
         (critique_phase statuses (i + 1) (critique_node_wrapper c)).2 + 2) := by
  rw [critique_phase]
  split
  · rename_i h2
    rw [h] at h2
    cases h2
  · rfl

/-- The critique phase executes at most `2 * (max_critiques - c) + 1` nodes. -/
theorem critique_phase_steps_le (statuses : Nat → List Bool) (i c : Nat) :
    (critique_phase statuses i c).2 ≤ 2 * (max_critiques - c) + 1 := by
  induction i, c using critique_phase.induct statuses with
  | case1 i c h =>
      rw [critique_phase_auditor_eq statuses i c h]
      omega
  | case2 i c h ih =>
      rw [critique_phase_generator_eq statuses i c h]
      have hlt := should_continue_critique_generator_lt h
      simp only [critique_node_wrapper] at hlt ih ⊢
      simp only [max_critiques] at hlt ih ⊢
      omega

/-- C2: with `max_revisions = 3` the revision loop applies the reviser at most
3 times. Each reviser application increments the revision counter by exactly 1
(so the final counter of a loop entered at 0 counts the refine applications),
the loop's final counter never exceeds the cap, and once the counter has
reached the cap the router returns the terminal transition whatever feedback or
scores are outstanding — the loop always terminates. -/
theorem revision_loop_applies_refine_at_most_three_times :
    (∀ c, reviser_node_wrapper c = c + 1) ∧
    (∀ (scores : Nat → List Nat) (i : Nat), (revision_phase scores i 0).1 ≤ max_revisions) ∧
    (∀ (c : Nat) (scores : List Nat), max_revisions ≤ c →
      should_continue_revising c scores = ReviseRoute.stop) := by
  refine ⟨fun _ => rfl, ?_, ?_⟩
  · intro scores i
    have h := revision_phase_count_le scores i 0
    have hmax : max (0 + 1) max_revisions = max_revisions := Nat.max_eq_right (by simp [max_revisions])
    rw [hmax] at h
    exact h
  · intro c scores hc
    simp [should_continue_revising, hc]

/-- Witness for C2: the cap condition and the bound evaluated with a score
oracle that always reports 5/10 (a permanently failing gate). -/
theorem revision_loop_applies_refine_at_most_three_times_witness :
    max_revisions ≤ 3 ∧
    should_continue_revising 3 [5] = ReviseRoute.stop ∧
    (revision_phase (fun _ => [5]) 0 0).1 ≤ max_revisions :=
  ⟨by decide,
   revision_loop_applies_refine_at_most_three_times.2.2 3 [5] (by decide),
   revision_loop_applies_refine_at_most_three_times.2.1 (fun _ => [5]) 0⟩

/-- Nodes of the compiled workflow in `src/run_graph.py` lines 358–398 (END is
`terminal`). The graph has no fact-verification node. -/
inductive GNode where
  | researcher
  | generator
  | critique
  | auditor
  | reviser
  | terminal
  deriving DecidableEq, Repr

/-- Static successor sets declared by `workflow.add_edge` and
`workflow.add_conditional_edges` (`src/run_graph.py` lines 368–396). -/
def successors : GNode → List GNode
  | GNode.researcher => [GNode.generator]
  | GNode.generator => [GNode.critique]
  | GNode.critique => [GNode.auditor, GNode.generator]
  | GNode.auditor => [GNode.reviser]
  | GNode.reviser => [GNode.auditor, GNode.terminal]
  | GNode.terminal => []

/-- The conditional edge after the reviser (`src/run_graph.py` lines 389–396):
the router's "auditor" maps to the auditor node and "end" maps to END. -/
def next_after_reviser (revision_count : Nat) (message_scores : List Nat) : GNode :=
  match should_continue_revising revision_count message_scores with
  | ReviseRoute.auditor => GNode.auditor
  | ReviseRoute.stop => GNode.terminal

/-- C8 counterexample: after a refine application with revision counter 1 and
no parsed quality score, the next stage executed is the auditor — the workflow
loops straight back to audit; it has no fact-verification stage at all. -/
theorem refine_loops_straight_back_to_audit :
    next_after_reviser 1 [] = GNode.auditor :=
  rfl

/-- C8 (amended): after every refine application the next stage is either a
direct re-audit or END, and it always lies in the statically declared successor
set of the reviser; the workflow contains no fact-verification stage, so a
refined article is never fact-re-checked before the next audit. -/
theorem next_after_reviser_is_audit_or_end (revision_count : Nat) (message_scores : List Nat) :
    (next_after_reviser revision_count message_scores = GNode.auditor ∨
     next_after_reviser revision_count message_scores = GNode.terminal) ∧
    next_after_reviser revision_count message_scores ∈ successors GNode.reviser := by
  unfold next_after_reviser
  cases h : should_continue_revising revision_count message_scores <;> simp [successors]

/-- Final state of one workflow run, as seen by the caller of `app.invoke`:
the two loop counters and the total number of node executions. -/
structure WorkflowRun where
  critique_count : Nat
  revision_count : Nat
  steps : Nat
  deriving DecidableEq, Repr

/-- A complete run of the compiled workflow (`src/run_graph.py` lines 358–398,
invoked at lines 542–551 with `revision_count = 0`, `critique_count = 0` and
`recursion_limit = 300`): researcher, first generator, the critique loop, then
the audit/revise loop. `statuses` and `scores` are the message-parsing oracles
handed to the two routers on their successive invocations. -/
def run_workflow (statuses : Nat → List Bool) (scores : Nat → List Nat) : WorkflowRun :=
  { critique_count := (critique_phase statuses 0 0).1,
    revision_count := (revision_phase scores 0 0).1,
    steps := 2 + (critique_phase statuses 0 0).2 + (revision_phase scores 0 0).2 }

/-- C9: exhausting a loop budget is terminal-but-successful. For every pair of
router oracles the run executes strictly fewer nodes than the global
`recursion_limit` of 300, so `invoke` returns a final state normally and never
raises solely because a quality gate kept failing; the returned revision
counter never exceeds the cap; and when no quality score ever reaches the 9/10
threshold the run still terminates, returning the best available article with
the diagnostic `revision_count = max_revisions` that the caller reports. -/
theorem budget_exhaustion_is_terminal_success :
    (∀ statuses scores, (run_workflow statuses scores).steps < recursion_limit) ∧
    (∀ statuses scores, (run_workflow statuses scores).revision_count ≤ max_revisions) ∧
    (∀ statuses scores, (∀ j s, s ∈ scores j → s < 9) →
      (run_workflow statuses scores).revision_count = max_revisions) := by
  refine ⟨?_, ?_, ?_⟩
  · intro statuses scores
    have h1 := critique_phase_steps_le statuses 0 0
    have h2 := revision_phase_steps_le scores 0 0
    simp only [run_workflow, recursion_limit, max_critiques, max_revisions] at h1 h2 ⊢
    omega
  · intro statuses scores
    have h := revision_phase_count_le scores 0 0
    have hmax : max (0 + 1) max_revisions = max_revisions := Nat.max_eq_right (by simp [max_revisions])
    rw [hmax] at h
    exact h
  · intro statuses scores hgate
    exact revision_phase_count_eq_max scores 0 0 (by simp [max_revisions]) hgate

/-- Witness for C9: with a critique oracle that always reports FAIL and a score
oracle that always reports 5/10 (both gates permanently failing), the run still
finishes under the step budget and reports the revision cap as its diagnostic. -/
theorem budget_exhaustion_is_terminal_success_witness :
    (∀ j s, s ∈ (fun _ => [5] : Nat → List Nat) j → s < 9) ∧
    (run_workflow (fun _ => [false]) (fun _ => [5])).revision_count = max_revisions ∧
    (run_workflow (fun _ => [false]) (fun _ => [5])).steps < recursion_limit :=
  ⟨by intro j s hs; simp at hs; omega,
   budget_exhaustion_is_terminal_success.2.2 (fun _ => [false]) (fun _ => [5])
     (by intro j s hs; simp at hs; omega),
   budget_exhaustion_is_terminal_success.1 (fun _ => [false]) (fun _ => [5])⟩
